import Mathlib

/-!
Verification of the dynamic navigation-mesh subsystem of the dviglo engine
(`source/dviglo/navigation/dynamic_navigation_mesh.cpp`).

The C++ orchestrator is embedded shallowly: pure computations become Lean
functions, the stateful orchestrator becomes explicit state passing over a
record type, and the third-party Detour tile cache is modelled as the finite
map of compressed tiles it stores, with the orchestrator-visible operations
(`addTile`, `removeTile`, `getTilesAt`) given their documented meaning.
Machine integers are `Nat`/`Int`; byte blobs are `List Nat`.
-/

namespace DvigloNav

/-! ## Math helpers

`NextPowerOfTwo` and `LogBaseTwo` live in the repository's math headers,
which are not among the provided sources; only their call sites in
`dynamic_navigation_mesh.cpp` are. They are modelled from the spec. -/

/-- Modelled from the spec: `NextPowerOfTwo` (math helper missing from the
provided sources) "rounds `maxTiles` up to the next power of two". -/
def nextPowerOfTwo (x : Nat) : Nat := 2 ^ Nat.clog 2 x

/-- Modelled from the spec: `LogBaseTwo` (math helper missing from the
provided sources), the floor base-2 logarithm used as the tile-bit count
(`log2(maxTiles)`). -/
def logBaseTwo (x : Nat) : Nat := Nat.log 2 x

/-! ## LinearAllocator (dynamic_navigation_mesh.cpp lines 143-189)

A bump allocator over a single buffer: `alloc` advances `top`, `reset`
records the high-water mark and rewinds `top` to zero, `free` does nothing.
The buffer pointer is modelled by `bufferExists` (whether `dtAlloc`
succeeded in `resize`); an offset into the buffer stands in for the
returned pointer. -/

structure LinearAllocator where
  bufferExists : Bool
  capacity : Nat
  top : Nat
  high : Nat
  deriving Repr, DecidableEq

namespace LinearAllocator

/-- Constructor `LinearAllocator(cap)`: zeroes the fields, then `resize(cap)`
allocates the buffer (success is the environment's `allocOk`). -/
def mk0 (cap : Nat) (allocOk : Bool) : LinearAllocator :=
  { bufferExists := allocOk, capacity := cap, top := 0, high := 0 }

/-- `alloc(size)`: null when the buffer is missing or `top + size > capacity`;
otherwise returns the offset `top` and advances `top` by `size`. -/
def alloc (a : LinearAllocator) (size : Nat) : Option Nat × LinearAllocator :=
  if !a.bufferExists then (none, a)
  else if a.top + size > a.capacity then (none, a)
  else (some a.top, { a with top := a.top + size })

/-- `reset()`: `high = Max(high, top); top = 0`. -/
def reset (a : LinearAllocator) : LinearAllocator :=
  { a with high := max a.high a.top, top := 0 }

/-- `free(void*)`: a no-op. -/
def free (a : LinearAllocator) (_ptr : Nat) : LinearAllocator := a

/-- The invariant `top ≤ capacity` (`0 ≤ top` holds by the `Nat` encoding). -/
def Inv (a : LinearAllocator) : Prop := a.top ≤ a.capacity

instance (a : LinearAllocator) : Decidable a.Inv := by
  unfold Inv; infer_instance

end LinearAllocator

/-! ## Allocate: effective tile count and identifier bit budget
(dynamic_navigation_mesh.cpp lines 218-248) -/

/-- The parameter computation of `DynamicNavigationMesh::Allocate` (lines
230-241): `maxTiles = NextPowerOfTwo(maxTiles)`, `tileBits =
LogBaseTwo(maxTiles)`, `maxPolys = 1u << (22 - tileBits)`. Returns
(effective maxTiles, tileBits, maxPolys). -/
def allocateBitBudget (maxTiles : Nat) : Nat × Nat × Nat :=
  let mt := nextPowerOfTwo maxTiles
  let tileBits := logBaseTwo mt
  let maxPolys := 2 ^ (22 - tileBits)
  (mt, tileBits, maxPolys)

/-! ## Compressed tile cache and snapshot serialization
(dynamic_navigation_mesh.cpp lines 655-798)

The third-party `dtTileCache` is modelled by what the orchestrator observes
of it: the list of stored compressed tiles. `addTile` links the new tile at
the head of the lookup chain; `getTilesAt` returns the stored tiles at a
coordinate, at most the caller's layer limit. -/

/-- `dtTileCacheLayerHeader` as the orchestrator uses it: tile coordinates
`tx`, `ty`, layer index `tlayer`, and the remaining fixed-size fields
(bounds, dimensions, height range) kept as opaque bytes. -/
structure TCLayerHeader where
  tx : Int
  ty : Int
  tlayer : Nat
  rest : List Nat
  deriving Repr, DecidableEq

/-- A compressed tile stored in the tile cache: its layer header and the
compressed blob (`dataSize` is `data.length`). -/
structure CompressedTile where
  header : TCLayerHeader
  data : List Nat
  deriving Repr, DecidableEq

/-- The compressed tile cache: the stored tiles in lookup-chain order
(`addTile` prepends). -/
structure TileCache where
  tiles : List CompressedTile
  deriving Repr, DecidableEq

/-- Whether a stored tile sits at coordinate (x, z). -/
def coordEq (x z : Int) (t : CompressedTile) : Bool :=
  t.header.tx == x && t.header.ty == z

/-- All stored tiles at one coordinate, in chain order. -/
def tilesAt (c : TileCache) (x z : Int) : List CompressedTile :=
  c.tiles.filter (coordEq x z)

/-- `dtTileCache::getTilesAt(x, z, tiles, maxLayersArg)`: at most `mL` of
the stored tiles at (x, z). -/
def getTilesAt (c : TileCache) (x z : Int) (mL : Nat) : List CompressedTile :=
  (tilesAt c x z).take mL

/-- `dtTileCache::addTile`: the tile is linked at the head of the chain. -/
def addTile (c : TileCache) (t : CompressedTile) : TileCache :=
  { tiles := t :: c.tiles }

/-- One `(header, dataSize, data)` record of the persisted snapshot
(the writes at lines 744-746; `dataSize` is the blob length). -/
abbrev TileRecord := CompressedTile

/-- `DynamicNavigationMesh::WriteTiles(dest, x, z)` (lines 734-748):
enumerates `getTilesAt(x, z, tiles, maxLayers_)` and writes a record per
tile, skipping void-space tiles (no header or zero `dataSize`); stored
tiles always carry a header, so the live filter is a non-empty blob. -/
def WriteTiles (c : TileCache) (mL : Nat) (x z : Int) : List TileRecord :=
  (getTilesAt c x z mL).filter (fun t => !t.data.isEmpty)

/-- One grid row of `GetNavigationDataAttr`: `WriteTiles` for
`x = 0 .. n-1` at row `z` (inner loop of lines 720-722). -/
def serializeRow (c : TileCache) (mL : Nat) (z : Int) : Nat → List TileRecord
  | 0 => []
  | n + 1 => serializeRow c mL z n ++ WriteTiles c mL (n : Int) z

/-- The tile records of `GetNavigationDataAttr`: rows `z = 0 .. m-1` in
row-major order (lines 720-722). -/
def serializeGrid (c : TileCache) (mL nX : Nat) : Nat → List TileRecord
  | 0 => []
  | m + 1 => serializeGrid c mL nX m ++ serializeRow c mL (m : Int) nX

/-! ## Tile build pipeline (dynamic_navigation_mesh.cpp lines 800-1017)

`BuildTile` runs the Recast pipeline for one coordinate. Geometry collection
and each Recast/Detour stage are external collaborators; their outcomes per
tile coordinate are the build environment. -/

/-- `NavigationMesh::partitionType_` (NAVMESH_PARTITION_WATERSHED or
NAVMESH_PARTITION_MONOTONE), choosing the region partition at lines
893-914. -/
inductive PartitionType where
  | watershed
  | monotone
  deriving Repr, DecidableEq

/-- Per-coordinate outcomes of the geometry collector and of the
Recast/Detour stages invoked by `BuildTile`. `layers` gives, per produced
heightfield layer, its header payload (bounds, dims, height range) and its
compressed blob; `layerSerializeOk` is `dtBuildTileCacheLayer` success;
`addTileOk` is `dtTileCache::addTile` acceptance per layer index. -/
structure TileBuildEnv where
  geomVertices : Int → Int → List Nat
  geomIndices : Int → Int → List Nat
  hfAllocOk : Int → Int → Bool
  hfCreateOk : Int → Int → Bool
  chfAllocOk : Int → Int → Bool
  chfBuildOk : Int → Int → Bool
  erodeOk : Int → Int → Bool
  distFieldOk : Int → Int → Bool
  regionsOk : Int → Int → Bool
  regionsMonotoneOk : Int → Int → Bool
  layerSetAllocOk : Int → Int → Bool
  layersBuildOk : Int → Int → Bool
  layers : Int → Int → List (List Nat × List Nat)
  layerSerializeOk : Int → Int → Nat → Bool
  addTileOk : Int → Int → Nat → Bool

/-- The layer loop of `BuildTile` (lines 930-963): layer `i` becomes a
compressed tile whose header carries `tx = x`, `ty = z`, `tlayer = i`
(lines 936-938). -/
def layersToTiles (x z : Int) (i : Nat) :
    List (List Nat × List Nat) → List CompressedTile
  | [] => []
  | l :: ls => ⟨⟨x, z, i, l.1⟩, l.2⟩ :: layersToTiles x z (i + 1) ls

/-- The tiles returned by `DynamicNavigationMesh::BuildTile` (lines
800-977): zero on empty collected geometry (lines 840-841, not an error)
and on any stage failure; on any `dtBuildTileCacheLayer` failure the whole
tile aborts with zero layers (lines 954-960); otherwise one compressed tile
per heightfield layer. -/
def BuildTileLayers (env : TileBuildEnv) (pt : PartitionType) (x z : Int) :
    List CompressedTile :=
  if (env.geomVertices x z).isEmpty || (env.geomIndices x z).isEmpty then []
  else if !env.hfAllocOk x z then []
  else if !env.hfCreateOk x z then []
  else if !env.chfAllocOk x z then []
  else if !env.chfBuildOk x z then []
  else if !env.erodeOk x z then []
  else if pt == PartitionType.watershed &&
      (!env.distFieldOk x z || !env.regionsOk x z) then []
  else if pt == PartitionType.monotone && !env.regionsMonotoneOk x z then []
  else if !env.layerSetAllocOk x z then []
  else if !env.layersBuildOk x z then []
  else if (List.range (env.layers x z).length).all
      (fun i => env.layerSerializeOk x z i) then
    layersToTiles x z 0 (env.layers x z)
  else []

/-- Removal of the first `n` stored tiles satisfying `p`, in chain order:
the effect of the `getTilesAt`/`removeTile` loops (lines 546-553 and
987-994 remove at most `maxLayers_` tiles at one coordinate). -/
def removeCountP (p : CompressedTile → Bool) :
    Nat → List CompressedTile → List CompressedTile
  | _, [] => []
  | 0, l => l
  | n + 1, t :: ts =>
    if p t then removeCountP p n ts else t :: removeCountP p (n + 1) ts

/-- The `addTile` loop over freshly built layers (lines 418-427 and
998-1011): layer `i` is linked into the cache when the cache accepts it,
and freed (dropped) otherwise. -/
def addLayerLoop (ok : Nat → Bool) : Nat → List CompressedTile → TileCache → TileCache
  | _, [], c => c
  | i, t :: ts, c => addLayerLoop ok (i + 1) ts (if ok i then addTile c t else c)

/-- One iteration of `build_tiles` (lines 987-1012): drop the existing
compressed tiles at (x, z) (at most `maxLayers_` of them), then `BuildTile`
— whose line 804 removes the navmesh-referenced cached tile at (x, z,
layer 0) — then insert the accepted new layers. -/
def buildTilesStep (env : TileBuildEnv) (pt : PartitionType) (mL : Nat)
    (x z : Int) (c : TileCache) : TileCache :=
  let c1 : TileCache := ⟨removeCountP (coordEq x z) mL c.tiles⟩
  let c2 : TileCache :=
    ⟨removeCountP (fun t => coordEq x z t && (t.header.tlayer == 0)) 1 c1.tiles⟩
  addLayerLoop (env.addTileOk x z) 0 (BuildTileLayers env pt x z) c2

/-- The inclusive coordinate range `from ... to` walked by `build_tiles`. -/
def intRangeIncl (a b : Int) : List Int :=
  (List.range (b + 1 - a).toNat).map (fun (k : Nat) => a + (k : Int))

/-- `DynamicNavigationMesh::build_tiles(geometryList, from, to)` (lines
979-1017): row-major loop over the inclusive rectangle. -/
def build_tiles (env : TileBuildEnv) (pt : PartitionType) (mL : Nat)
    (p q : Int × Int) (c : TileCache) : TileCache :=
  (intRangeIncl p.2 q.2).foldl
    (fun acc z =>
      (intRangeIncl p.1 q.1).foldl
        (fun acc2 x => buildTilesStep env pt mL x z acc2) acc)
    c

/-- `DynamicNavigationMesh::Build(const IntVector2&, const IntVector2&)`
(lines 496-519): fails without a node or before a first full build,
otherwise delegates the rectangle to `build_tiles`. -/
def BuildRange (nodePresent navMeshPresent : Bool) (env : TileBuildEnv)
    (pt : PartitionType) (mL : Nat) (p q : Int × Int) (c : TileCache) :
    Bool × TileCache :=
  if !nodePresent then (false, c)
  else if !navMeshPresent then (false, c)
  else (true, build_tiles env pt mL p q c)

/-- The full-build grid loop body (lines 416-429): `BuildTile` (including
its line-804 removal) then `addTile` per accepted layer;
`buildNavMeshTilesAt` touches only the navmesh. -/
def buildAllStep (env : TileBuildEnv) (pt : PartitionType) (x z : Int)
    (c : TileCache) : TileCache :=
  addLayerLoop (env.addTileOk x z) 0 (BuildTileLayers env pt x z)
    ⟨removeCountP (fun t => coordEq x z t && (t.header.tlayer == 0)) 1 c.tiles⟩

/-- The full-build tile loop (lines 412-431) over the whole grid, starting
from the freshly initialized empty cache. -/
def buildAllTiles (env : TileBuildEnv) (pt : PartitionType) (nX nZ : Nat) :
    TileCache :=
  (List.range nZ).foldl
    (fun acc z =>
      (List.range nX).foldl
        (fun acc2 x => buildAllStep env pt (x : Int) (z : Int) acc2) acc)
    ⟨[]⟩

/-- Environment of one `DynamicNavigationMesh::Build()` call: the owning
node, the collected geometry list (opaque infos), the grid dimensions
computed from the merged padded bounds, and the third-party allocation and
initialization outcomes. -/
structure FullBuildEnv where
  nodePresent : Bool
  geometryList : List Nat
  numTilesX : Nat
  numTilesZ : Nat
  navMeshAllocOk : Bool
  navMeshInitOk : Bool
  tileCacheAllocOk : Bool
  tileCacheInitOk : Bool
  tileEnv : TileBuildEnv
  partitionType : PartitionType

/-- `DynamicNavigationMesh::Build()` (lines 317-459): releases existing
state; fails without a node; succeeds as a no-op when no geometry was
collected (lines 332-333); fails when navmesh or tile-cache allocation or
initialization fails (lines 365-407); otherwise builds every tile and
returns the resulting cache. `none` is the released state (no mesh). -/
def BuildFull (env : FullBuildEnv) : Bool × Option TileCache :=
  if !env.nodePresent then (false, none)
  else if env.geometryList.isEmpty then (true, none)
  else if !env.navMeshAllocOk then (false, none)
  else if !env.navMeshInitOk then (false, none)
  else if !env.tileCacheAllocOk then (false, none)
  else if !env.tileCacheInitOk then (false, none)
  else (true, some (buildAllTiles env.tileEnv env.partitionType
    env.numTilesX env.numTilesZ))

/-! ## Mesh-Process callback (dynamic_navigation_mesh.cpp lines 71-139 and
1019-1035)

`MeshProcess::process` runs when the cache converts a layer blob into
navmesh polygons. Spatial coordinates are abstracted to `Int` triples; the
world-to-local inverse transform is an abstract function parameter. -/

/-- Axis-aligned bounding box over abstracted integer coordinates. -/
structure BBox where
  minX : Int
  minY : Int
  minZ : Int
  maxX : Int
  maxY : Int
  maxZ : Int
  deriving Repr, DecidableEq

/-- Axis-aligned box intersection, the overlap relation the spec's wording
refers to. -/
def bboxOverlaps (a b : BBox) : Bool :=
  a.minX ≤ b.maxX && b.minX ≤ a.maxX && a.minY ≤ b.maxY && b.minY ≤ a.maxY &&
  a.minZ ≤ b.maxZ && b.minZ ≤ a.maxZ

/-- An `OffMeshConnection` component as the callback reads it: enabled
state, presence of an end point, world bounds, endpoints, radius, mask,
area and direction. -/
structure OffMeshConn where
  enabled : Bool
  hasEndPoint : Bool
  bounds : BBox
  startPos : Int × Int × Int
  endPos : Int × Int × Int
  radius : Int
  mask : Nat
  areaID : Nat
  bidirectional : Bool
  deriving Repr, DecidableEq

/-- `DynamicNavigationMesh::CollectOffMeshConnections(const BoundingBox&)`
(lines 1019-1035): gathers every `OffMeshConnection` component in the
subtree and erases those that are disabled or lack an end point. The
`bounds` argument is not consulted. -/
def CollectOffMeshConnections (_bounds : BBox) (comps : List OffMeshConn) :
    List OffMeshConn :=
  comps.filter (fun c => c.enabled && c.hasEndPoint)

/-- Modelled from the spec (for comparison): the query the spec describes,
"the off-mesh connections whose bounds overlap that layer's bounds". -/
def CollectOffMeshConnectionsSpec (bounds : BBox) (comps : List OffMeshConn) :
    List OffMeshConn :=
  comps.filter (fun c => c.enabled && c.hasEndPoint && bboxOverlaps bounds c.bounds)

/-- The bounds `MeshProcess::process` builds at lines 95-97: both `min_`
and `max_` are copied from `params->bmin`. -/
def processQueryBounds (bmin _bmax : Int × Int × Int) : BBox :=
  ⟨bmin.1, bmin.2.1, bmin.2.2, bmin.1, bmin.2.1, bmin.2.2⟩

/-- The poly-flag override loop (lines 89-93): any polygon whose area is
not `RC_NULL_AREA` (0) has its flags overridden to `RC_WALKABLE_AREA`
(63). -/
def processPolyFlags (polyAreas polyFlags : List Nat) : List Nat :=
  List.zipWith (fun a f => if a ≠ 0 then 63 else f) polyAreas polyFlags

/-- The connection arrays cached inside the `MeshProcess` instance
(`offMeshVertices_` ... `offMeshDir_`). -/
structure MeshProcessState where
  offMeshVertices : List (Int × Int × Int)
  offMeshRadii : List Int
  offMeshFlags : List Nat
  offMeshAreas : List Nat
  offMeshDir : List Nat
  deriving Repr, DecidableEq

/-- The inputs of `dtNavMeshCreateParams` that `process` reads or writes. -/
structure MeshProcessParams where
  bmin : Int × Int × Int
  bmax : Int × Int × Int
  polyAreas : List Nat
  polyFlags : List Nat
  deriving Repr, DecidableEq

/-- What `process` leaves behind: the instance's cached arrays, the
updated poly flags, and the published off-mesh connection count
(`params->offMeshConCount`, still 0 when nothing was published). -/
structure ProcessResult where
  state : MeshProcessState
  polyFlags : List Nat
  offMeshConCount : Nat
  deriving Repr, DecidableEq

/-- `MeshProcess::process` (lines 85-129): override poly flags, collect
connections through `CollectOffMeshConnections` with the (degenerate)
bounds of lines 95-97, and when any were collected, rebuild the cached
arrays — only if the collected count differs from the cached count —
transforming endpoints by the inverse world transform `inv`, then publish
the arrays (`DT_OFFMESH_CON_BIDIR` is 1). -/
def MeshProcessRun (inv : Int × Int × Int → Int × Int × Int)
    (comps : List OffMeshConn) (st : MeshProcessState)
    (pr : MeshProcessParams) : ProcessResult :=
  let flags2 := processPolyFlags pr.polyAreas pr.polyFlags
  let conns := CollectOffMeshConnections (processQueryBounds pr.bmin pr.bmax) comps
  if conns.isEmpty then ⟨st, flags2, 0⟩
  else
    let st2 :=
      if conns.length ≠ st.offMeshRadii.length then
        { offMeshVertices := conns.bind (fun c => [inv c.startPos, inv c.endPos])
          offMeshRadii := conns.map (fun c => c.radius)
          offMeshFlags := conns.map (fun c => c.mask)
          offMeshAreas := conns.map (fun c => c.areaID)
          offMeshDir := conns.map (fun c => if c.bidirectional then 1 else 0) }
      else st
    ⟨st2, flags2, st2.offMeshRadii.length⟩

/-- The mesh state serialized by `GetNavigationDataAttr` (bounding box,
grid dimensions, native parameter structs as opaque bytes, the cache). -/
structure MeshState where
  boundingBox : List Nat
  numTilesX : Nat
  numTilesZ : Nat
  navMeshParams : List Nat
  tileCacheParams : List Nat
  maxLayers : Nat
  cache : TileCache
  deriving Repr, DecidableEq

/-- The whole-mesh snapshot stream: header fields followed by the tile
records until end of stream. -/
structure NavDataSnapshot where
  boundingBox : List Nat
  numTilesX : Nat
  numTilesZ : Nat
  navMeshParams : List Nat
  tileCacheParams : List Nat
  records : List TileRecord
  deriving Repr, DecidableEq

/-- `DynamicNavigationMesh::GetNavigationDataAttr()` (lines 705-725) on a
built state (navmesh and cache exist). -/
def GetNavigationDataAttr (s : MeshState) : NavDataSnapshot :=
  { boundingBox := s.boundingBox
    numTilesX := s.numTilesX
    numTilesZ := s.numTilesZ
    navMeshParams := s.navMeshParams
    tileCacheParams := s.tileCacheParams
    records := serializeGrid s.cache s.maxLayers s.numTilesX s.numTilesZ }

/-- The `addTile` loop of `ReadTiles` (lines 753-777): each record read is
added to the (fresh) cache in stream order. -/
def addTileList (c : TileCache) : List TileRecord → TileCache
  | [] => c
  | r :: rs => addTileList (addTile c r) rs

/-- The coordinate queue built by `ReadTiles` (lines 774-776): record
coordinates with consecutive duplicates collapsed; `buildNavMeshTilesAt` is
then invoked once per entry followed by one `update` pass. -/
def readTileQueue (rs : List TileRecord) : List (Int × Int) :=
  rs.foldl
    (fun q r =>
      if q.getLast? = some (r.header.tx, r.header.ty) then q
      else q ++ [(r.header.tx, r.header.ty)])
    []

/-- `DynamicNavigationMesh::SetNavigationDataAttr` (lines 655-703) on a
fresh instance: reads the header fields, re-initializes mesh and cache from
the embedded parameter structs, then replays every record through
`ReadTiles`. `mL` is the fresh instance's `maxLayers_` attribute. -/
def SetNavigationDataAttr (mL : Nat) (snap : NavDataSnapshot) : MeshState :=
  { boundingBox := snap.boundingBox
    numTilesX := snap.numTilesX
    numTilesZ := snap.numTilesZ
    navMeshParams := snap.navMeshParams
    tileCacheParams := snap.tileCacheParams
    maxLayers := mL
    cache := addTileList { tiles := [] } snap.records }

end DvigloNav

namespace DvigloNav

/-! ## Theorems: C9 (LinearAllocator) and C2 (Allocate bit budget) -/

/-- C9: the LinearAllocator preserves `0 ≤ top ≤ capacity` across every
operation; `alloc` succeeds (returns an offset, i.e. a non-null pointer) iff
the buffer exists and `top + size ≤ capacity`, in which case it advances
`top` by exactly `size`; `reset` rewinds `top` to 0 recording the high-water
mark; `free` changes nothing. -/
theorem linearAllocator_inv_and_ops (a : LinearAllocator) (size ptr : Nat)
    (hInv : a.Inv) :
    ((a.alloc size).2.Inv ∧ a.reset.Inv ∧ (a.free ptr).Inv) ∧
    (((a.alloc size).1.isSome ↔ a.bufferExists = true ∧ a.top + size ≤ a.capacity)) ∧
    (a.bufferExists = true → a.top + size ≤ a.capacity →
      (a.alloc size).2.top = a.top + size ∧ (a.alloc size).1 = some a.top) ∧
    (a.reset.top = 0 ∧ a.reset.high = max a.high a.top ∧
      a.reset.capacity = a.capacity ∧ a.reset.bufferExists = a.bufferExists) ∧
    (a.free ptr = a) := by
  unfold LinearAllocator.Inv LinearAllocator.alloc LinearAllocator.reset
    LinearAllocator.free at *
  refine ⟨⟨?_, by simp [hInv], by simp [hInv]⟩, ?_, ?_, ⟨rfl, rfl, rfl, rfl⟩, rfl⟩
  · by_cases hb : a.bufferExists
    · by_cases hc : a.top + size > a.capacity
      · simp [hb, hc, hInv]
      · simp only [hb, hc]; simp; omega
    · simp [hb, hInv]
  · by_cases hb : a.bufferExists
    · by_cases hc : a.top + size > a.capacity
      · simp [hb, hc] <;> omega
      · simp [hb, hc] <;> omega
    · simp [hb]
  · intro hb hc
    have hc2 : ¬ a.top + size > a.capacity := by omega
    simp [hb, hc2]

/-- C9 witness at a concrete allocator state. -/
theorem linearAllocator_inv_and_ops_witness :
    (LinearAllocator.mk true 100 10 0).Inv ∧
    (((LinearAllocator.mk true 100 10 0).alloc 5).2.Inv ∧
      (LinearAllocator.mk true 100 10 0).reset.Inv ∧
      ((LinearAllocator.mk true 100 10 0).free 3).Inv) ∧
    ((((LinearAllocator.mk true 100 10 0).alloc 5).1.isSome ↔
      (LinearAllocator.mk true 100 10 0).bufferExists = true ∧ 10 + 5 ≤ 100)) := by
  have h := linearAllocator_inv_and_ops (LinearAllocator.mk true 100 10 0) 5 3
    (by decide)
  exact ⟨by decide, h.1, by simpa using h.2.1⟩

/-- C2: for `1 ≤ maxTiles ≤ 2^22`, `Allocate` makes the effective maximum
tile count the least power of two ≥ `maxTiles`, and the bit budget satisfies
`tileBits + polyBits = 22` with `maxPolys = 2^(22 - log2(nextPow2 maxTiles))`. -/
theorem allocate_bit_budget (maxTiles : Nat) (h1 : 1 ≤ maxTiles)
    (h2 : maxTiles ≤ 2 ^ 22) :
    (∃ k, (allocateBitBudget maxTiles).1 = 2 ^ k) ∧
    maxTiles ≤ (allocateBitBudget maxTiles).1 ∧
    (∀ m, maxTiles ≤ 2 ^ m → (allocateBitBudget maxTiles).1 ≤ 2 ^ m) ∧
    (allocateBitBudget maxTiles).2.1 +
      logBaseTwo (allocateBitBudget maxTiles).2.2 = 22 ∧
    (allocateBitBudget maxTiles).2.2 =
      2 ^ (22 - logBaseTwo (nextPowerOfTwo maxTiles)) := by
  have hb : (1 : Nat) < 2 := by omega
  have hclog : Nat.clog 2 maxTiles ≤ 22 :=
    (Nat.le_pow_iff_clog_le hb).mp h2
  have htb : logBaseTwo (nextPowerOfTwo maxTiles) = Nat.clog 2 maxTiles := by
    simp [logBaseTwo, nextPowerOfTwo, Nat.log_pow hb]
  refine ⟨⟨Nat.clog 2 maxTiles, rfl⟩, ?_, ?_, ?_, ?_⟩
  · exact Nat.le_pow_clog hb maxTiles
  · intro m hm
    exact Nat.pow_le_pow_right (by omega) ((Nat.le_pow_iff_clog_le hb).mp hm)
  · show logBaseTwo (nextPowerOfTwo maxTiles) +
      logBaseTwo (2 ^ (22 - logBaseTwo (nextPowerOfTwo maxTiles))) = 22
    rw [htb]
    simp [logBaseTwo, Nat.log_pow hb]
    omega
  · rfl

/-- C2 witness at `maxTiles = 5`: effective count 8, tileBits 3, polyBits 19. -/
theorem allocate_bit_budget_witness :
    (1 ≤ 5 ∧ 5 ≤ 2 ^ 22) ∧
    ((∃ k, (allocateBitBudget 5).1 = 2 ^ k) ∧
     5 ≤ (allocateBitBudget 5).1 ∧
     (∀ m, 5 ≤ 2 ^ m → (allocateBitBudget 5).1 ≤ 2 ^ m) ∧
     (allocateBitBudget 5).2.1 + logBaseTwo (allocateBitBudget 5).2.2 = 22 ∧
     (allocateBitBudget 5).2.2 = 2 ^ (22 - logBaseTwo (nextPowerOfTwo 5))) :=
  ⟨by norm_num, allocate_bit_budget 5 (by norm_num) (by norm_num)⟩

/-! ## Obstacle lifecycle (dynamic_navigation_mesh.cpp lines 1058-1131)

The state visible to `AddObstacle` / `RemoveObstacle` / `ObstacleChanged`:
the tile-cache pointer (`tileCachePresent`), the cache's internal obstacle
queue and registered obstacle references, the obstacle component's handle
`obstacleId_` and its node pointer, and the sent notification events.

The spin loop `while (tileCache_->isObstacleQueueFull()) tileCache_->update(1,
navMesh_)` is embedded by its net effect on this view when it terminates:
the queue is no longer full and the rest of the view is untouched. -/

inductive NavEvent where
  | obstacleAdded
  | obstacleRemoved
  deriving Repr, DecidableEq

structure NavState where
  tileCachePresent : Bool
  queueFull : Bool
  cacheObstacles : List Nat
  obstacleId : Nat
  nodePresent : Bool
  events : List NavEvent
  deriving Repr, DecidableEq

/-- Outcomes of the tile cache's own obstacle operations (third-party Detour
code, seen by the orchestrator only through `dtStatusFailed` and the
returned reference). -/
structure CacheEnv where
  addObstacleOk : Bool
  newObstacleRef : Nat
  removeObstacleOk : Bool
  deriving Repr, DecidableEq

/-- `DynamicNavigationMesh::AddObstacle(Obstacle*, bool silent)`
(lines 1058-1092). -/
def AddObstacle (env : CacheEnv) (silent : Bool) (s : NavState) : NavState :=
  if s.tileCachePresent then
    let s1 := { s with queueFull := false }
    if !env.addObstacleOk then s1
    else
      let s2 := { s1 with obstacleId := env.newObstacleRef,
                          cacheObstacles := env.newObstacleRef :: s1.cacheObstacles }
      if !silent then { s2 with events := s2.events ++ [NavEvent.obstacleAdded] }
      else s2
  else s

/-- `DynamicNavigationMesh::RemoveObstacle(Obstacle*, bool silent)`
(lines 1103-1131): guarded by `tileCache_ && obstacle->obstacleId_ > 0`;
on cache failure returns with the handle untouched; on success zeroes the
handle, then sends the event only when not silent and a node exists. -/
def RemoveObstacle (env : CacheEnv) (silent : Bool) (s : NavState) : NavState :=
  if s.tileCachePresent && s.obstacleId > 0 then
    let s1 := { s with queueFull := false }
    if !env.removeObstacleOk then s1
    else
      let s2 := { s1 with obstacleId := 0,
                          cacheObstacles := s1.cacheObstacles.erase s.obstacleId }
      if !silent && s.nodePresent then
        { s2 with events := s2.events ++ [NavEvent.obstacleRemoved] }
      else s2
  else s

/-- `DynamicNavigationMesh::ObstacleChanged(Obstacle*)` (lines 1094-1101):
`if (tileCache_) { RemoveObstacle(obstacle, true); AddObstacle(obstacle,
true); }`. -/
def ObstacleChanged (env : CacheEnv) (s : NavState) : NavState :=
  if s.tileCachePresent then AddObstacle env true (RemoveObstacle env true s)
  else s

/-- C7: `RemoveObstacle` is a no-op on a zero handle; with a non-zero handle
and a present cache, on cache success it clears the handle to zero whether or
not a node exists, and on cache failure the handle is unchanged. -/
theorem removeObstacle_handle (env : CacheEnv) (silent : Bool) (s : NavState) :
    (s.obstacleId = 0 → RemoveObstacle env silent s = s) ∧
    (s.tileCachePresent = true → 0 < s.obstacleId →
      env.removeObstacleOk = true →
      (RemoveObstacle env silent s).obstacleId = 0) ∧
    (s.tileCachePresent = true → 0 < s.obstacleId →
      env.removeObstacleOk = false →
      (RemoveObstacle env silent s).obstacleId = s.obstacleId) := by
  unfold RemoveObstacle
  refine ⟨?_, ?_, ?_⟩
  · intro h0
    rw [h0]
    simp
  · intro htc hpos hok
    have hcond : (s.tileCachePresent && decide (0 < s.obstacleId)) = true := by
      simp [htc, hpos]
    by_cases hs : (!silent && s.nodePresent) = true <;> simp [hcond, hok, hs]
  · intro htc hpos hok
    have : (s.tileCachePresent && decide (0 < s.obstacleId)) = true := by
      simp [htc, hpos]
    simp [this, hok]

/-- C7 witness: a state with a destroyed node, non-zero handle and a
succeeding cache removal, plus the zero-handle no-op at an analogous state. -/
theorem removeObstacle_handle_witness :
    (({ tileCachePresent := true, queueFull := true, cacheObstacles := [7],
        obstacleId := 0, nodePresent := false, events := [] } : NavState).obstacleId = 0 ∧
      RemoveObstacle ⟨true, 7, true⟩ false
        { tileCachePresent := true, queueFull := true, cacheObstacles := [7],
          obstacleId := 0, nodePresent := false, events := [] } =
        { tileCachePresent := true, queueFull := true, cacheObstacles := [7],
          obstacleId := 0, nodePresent := false, events := [] }) ∧
    (RemoveObstacle ⟨true, 7, true⟩ false
      { tileCachePresent := true, queueFull := true, cacheObstacles := [7],
        obstacleId := 7, nodePresent := false, events := [] }).obstacleId = 0 := by
  have h1 := removeObstacle_handle ⟨true, 7, true⟩ false
    { tileCachePresent := true, queueFull := true, cacheObstacles := [7],
      obstacleId := 0, nodePresent := false, events := [] }
  have h2 := removeObstacle_handle ⟨true, 7, true⟩ false
    { tileCachePresent := true, queueFull := true, cacheObstacles := [7],
      obstacleId := 7, nodePresent := false, events := [] }
  exact ⟨⟨rfl, h1.1 rfl⟩, h2.2.1 rfl (by decide) rfl⟩

/-- C8: `ObstacleChanged` equals `RemoveObstacle` followed by `AddObstacle`
on the same obstacle with notifications suppressed (silent), and it emits no
notification itself. -/
theorem obstacleChanged_is_silent_remove_add (env : CacheEnv) (s : NavState) :
    ObstacleChanged env s = AddObstacle env true (RemoveObstacle env true s) ∧
    (ObstacleChanged env s).events = s.events := by
  constructor
  · unfold ObstacleChanged
    by_cases htc : s.tileCachePresent
    · simp [htc]
    · have hrm : RemoveObstacle env true s = s := by
        unfold RemoveObstacle
        simp [htc]
      have had : AddObstacle env true s = s := by
        unfold AddObstacle
        simp [htc]
      simp [htc, hrm, had]
  · unfold ObstacleChanged AddObstacle RemoveObstacle
    by_cases htc : s.tileCachePresent <;>
      by_cases hid : 0 < s.obstacleId <;>
      by_cases hro : env.removeObstacleOk <;>
      by_cases hao : env.addObstacleOk <;>
      simp [htc, hid, hro, hao]

/-- C10: with no tile cache allocated, `AddObstacle`, `RemoveObstacle` and
`ObstacleChanged` leave the whole state — handle, cache view and event
sink — untouched. -/
theorem obstacle_ops_noop_without_cache (env : CacheEnv) (silent : Bool)
    (s : NavState) (h : s.tileCachePresent = false) :
    AddObstacle env silent s = s ∧ RemoveObstacle env silent s = s ∧
    ObstacleChanged env s = s := by
  unfold AddObstacle RemoveObstacle ObstacleChanged
  simp [h]

/-! ## Serialization round trip (C3) -/

theorem mem_WriteTiles_coord {c : TileCache} {mL : Nat} {x z : Int}
    {t : CompressedTile} (ht : t ∈ WriteTiles c mL x z) :
    t.header.tx = x ∧ t.header.ty = z := by
  unfold WriteTiles getTilesAt tilesAt at ht
  have h1 := List.mem_filter.mp ht
  have h2 := List.take_subset mL _ h1.1
  have h3 := (List.mem_filter.mp h2).2
  unfold coordEq at h3
  simp only [Bool.and_eq_true, beq_iff_eq] at h3
  exact h3

theorem filter_coord_WriteTiles (c : TileCache) (mL : Nat) (x0 z0 x z : Int) :
    (WriteTiles c mL x z).filter (coordEq x0 z0) =
      if x = x0 ∧ z = z0 then WriteTiles c mL x z else [] := by
  by_cases h : x = x0 ∧ z = z0
  · rw [if_pos h]
    refine List.filter_eq_self.mpr ?_
    intro t ht
    have hc := mem_WriteTiles_coord ht
    unfold coordEq
    simp [hc.1, hc.2, h.1, h.2]
  · rw [if_neg h]
    refine List.filter_eq_nil_iff.mpr ?_
    intro t ht
    have hc := mem_WriteTiles_coord ht
    unfold coordEq
    simp only [Bool.and_eq_true, beq_iff_eq, not_and]
    intro hx hy
    exact h ⟨by omega, by omega⟩

theorem filter_coord_serializeRow (c : TileCache) (mL : Nat) (x0 z0 z : Int)
    (n : Nat) :
    (serializeRow c mL z n).filter (coordEq x0 z0) =
      if 0 ≤ x0 ∧ x0 < (n : Int) ∧ z = z0 then WriteTiles c mL x0 z else [] := by
  induction n with
  | zero =>
    rw [if_neg (by omega)]
    rfl
  | succ n ih =>
    unfold serializeRow
    rw [List.filter_append, ih, filter_coord_WriteTiles]
    by_cases hz : z = z0
    · by_cases hx : x0 = (n : Int)
      · rw [if_neg (by omega), if_pos ⟨hx.symm, hz⟩,
          if_pos ⟨by omega, by omega, hz⟩, hx]
        simp
      · by_cases hlt : 0 ≤ x0 ∧ x0 < (n : Int)
        · rw [if_pos ⟨hlt.1, hlt.2, hz⟩, if_neg (by omega),
            if_pos ⟨hlt.1, by omega, hz⟩]
          simp
        · rw [if_neg (by omega), if_neg (by omega), if_neg (by omega)]
          rfl
    · rw [if_neg (by omega), if_neg (by omega), if_neg (by omega)]
      rfl

theorem filter_coord_serializeGrid (c : TileCache) (mL nX : Nat) (x0 z0 : Int)
    (m : Nat) :
    (serializeGrid c mL nX m).filter (coordEq x0 z0) =
      if 0 ≤ x0 ∧ x0 < (nX : Int) ∧ 0 ≤ z0 ∧ z0 < (m : Int) then
        WriteTiles c mL x0 z0
      else [] := by
  induction m with
  | zero =>
    rw [if_neg (by omega)]
    rfl
  | succ m ih =>
    unfold serializeGrid
    rw [List.filter_append, ih, filter_coord_serializeRow]
    by_cases hz : z0 = (m : Int)
    · by_cases hx : 0 ≤ x0 ∧ x0 < (nX : Int)
      · rw [if_neg (by omega), if_pos ⟨hx.1, hx.2, hz.symm⟩,
          if_pos ⟨hx.1, hx.2, by omega, by omega⟩, hz]
        simp
      · rw [if_neg (by omega), if_neg (by omega), if_neg (by omega)]
        rfl
    · by_cases hin : 0 ≤ x0 ∧ x0 < (nX : Int) ∧ 0 ≤ z0 ∧ z0 < (m : Int)
      · rw [if_pos hin, if_neg (by omega),
          if_pos ⟨hin.1, hin.2.1, hin.2.2.1, by omega⟩]
        simp
      · rw [if_neg hin, if_neg (by omega), if_neg (by omega)]
        rfl

theorem addTileList_tiles (rs : List TileRecord) (c : TileCache) :
    (addTileList c rs).tiles = rs.reverse ++ c.tiles := by
  induction rs generalizing c with
  | nil => simp [addTileList]
  | cons r rs ih =>
    unfold addTileList addTile
    rw [ih]
    simp

theorem WriteTiles_eq_tilesAt (c : TileCache) (mL : Nat) (x z : Int)
    (hdata : ∀ t ∈ c.tiles, t.data ≠ [])
    (hlen : (tilesAt c x z).length ≤ mL) :
    WriteTiles c mL x z = tilesAt c x z := by
  unfold WriteTiles getTilesAt
  rw [List.take_of_length_le hlen]
  refine List.filter_eq_self.mpr ?_
  intro t ht
  have : t ∈ c.tiles := (List.mem_filter.mp ht).1
  simp [hdata t this]

/-- The decidable per-tile form of the layer-count bound implies the bound
at every coordinate. -/
theorem tilesAt_length_le (c : TileCache) (mL : Nat)
    (hcount : ∀ t ∈ c.tiles, (tilesAt c t.header.tx t.header.ty).length ≤ mL)
    (x z : Int) : (tilesAt c x z).length ≤ mL := by
  cases hne : tilesAt c x z with
  | nil => simp
  | cons t ts =>
    have hmem : t ∈ tilesAt c x z := by rw [hne]; exact List.mem_cons_self t ts
    have h1 : t ∈ c.tiles := (List.mem_filter.mp hmem).1
    have h2 := (List.mem_filter.mp hmem).2
    unfold coordEq at h2
    simp only [Bool.and_eq_true, beq_iff_eq] at h2
    have hle := hcount t h1
    rw [h2.1, h2.2, hne] at hle
    exact hle

/-- C3: serializing a built mesh state with `GetNavigationDataAttr` and
replaying the bytes through `SetNavigationDataAttr` on a fresh instance
reproduces the same set of non-empty tile coordinates and byte-identical
per-tile blobs (per coordinate, the stored tiles are the same multiset; the
lookup chain comes back reversed because `addTile` prepends). -/
theorem navigation_data_roundtrip (s : MeshState)
    (hdata : ∀ t ∈ s.cache.tiles, t.data ≠ [])
    (hcoord : ∀ t ∈ s.cache.tiles,
      0 ≤ t.header.tx ∧ t.header.tx < (s.numTilesX : Int) ∧
      0 ≤ t.header.ty ∧ t.header.ty < (s.numTilesZ : Int))
    (hcount : ∀ t ∈ s.cache.tiles,
      (tilesAt s.cache t.header.tx t.header.ty).length ≤ s.maxLayers) :
    (∀ x z, tilesAt (SetNavigationDataAttr s.maxLayers
        (GetNavigationDataAttr s)).cache x z = (tilesAt s.cache x z).reverse) ∧
    (∀ x z, tilesAt (SetNavigationDataAttr s.maxLayers
        (GetNavigationDataAttr s)).cache x z = [] ↔ tilesAt s.cache x z = []) ∧
    (∀ x z, ((tilesAt (SetNavigationDataAttr s.maxLayers
        (GetNavigationDataAttr s)).cache x z : List CompressedTile) :
          Multiset CompressedTile) = (tilesAt s.cache x z : List CompressedTile)) := by
  have hmain : ∀ x z, tilesAt (SetNavigationDataAttr s.maxLayers
      (GetNavigationDataAttr s)).cache x z = (tilesAt s.cache x z).reverse := by
    intro x z
    show List.filter (coordEq x z)
      (addTileList { tiles := [] }
        (serializeGrid s.cache s.maxLayers s.numTilesX s.numTilesZ)).tiles = _
    rw [addTileList_tiles, List.append_nil, List.filter_reverse,
      filter_coord_serializeGrid]
    by_cases hin : 0 ≤ x ∧ x < (s.numTilesX : Int) ∧ 0 ≤ z ∧ z < (s.numTilesZ : Int)
    · rw [if_pos hin,
        WriteTiles_eq_tilesAt s.cache s.maxLayers x z hdata
          (tilesAt_length_le s.cache s.maxLayers hcount x z)]
    · rw [if_neg hin]
      have hnil : tilesAt s.cache x z = [] := by
        refine List.eq_nil_iff_forall_not_mem.mpr ?_
        intro t ht
        have h1 : t ∈ s.cache.tiles := (List.mem_filter.mp ht).1
        have h2 := (List.mem_filter.mp ht).2
        unfold coordEq at h2
        simp only [Bool.and_eq_true, beq_iff_eq] at h2
        have := hcoord t h1
        rw [h2.1, h2.2] at this
        omega
      simp [hnil]
  refine ⟨hmain, fun x z => ?_, fun x z => ?_⟩
  · rw [hmain x z]
    simp
  · rw [hmain x z]
    exact Multiset.coe_reverse _

/-- C3 witness: a one-tile state at coordinate (0, 0) round-trips. -/
theorem navigation_data_roundtrip_witness :
    tilesAt (SetNavigationDataAttr 3 (GetNavigationDataAttr
      { boundingBox := [0], numTilesX := 1, numTilesZ := 1,
        navMeshParams := [], tileCacheParams := [], maxLayers := 3,
        cache := { tiles := [⟨⟨0, 0, 0, [5]⟩, [1, 2]⟩] } })).cache 0 0 =
      (tilesAt ({ tiles := [⟨⟨0, 0, 0, [5]⟩, [1, 2]⟩] } : TileCache) 0 0).reverse :=
  (navigation_data_roundtrip
    { boundingBox := [0], numTilesX := 1, numTilesZ := 1,
      navMeshParams := [], tileCacheParams := [], maxLayers := 3,
      cache := { tiles := [⟨⟨0, 0, 0, [5]⟩, [1, 2]⟩] } }
    (by decide) (by decide) (by decide)).1 0 0

/-! ## Partial rebuild locality (C4) and empty-geometry tiles (C6) -/

theorem mem_layersToTiles {x z : Int} {t : CompressedTile} :
    ∀ {i : Nat} {ls : List (List Nat × List Nat)},
      t ∈ layersToTiles x z i ls → t.header.tx = x ∧ t.header.ty = z := by
  intro i ls
  induction ls generalizing i with
  | nil => intro h; cases h
  | cons l ls ih =>
    intro h
    rcases List.mem_cons.mp h with h1 | h2
    · rw [h1]
      exact ⟨rfl, rfl⟩
    · exact ih h2

theorem iteCases {α : Type} (P : α → Prop) {c : Prop} [Decidable c]
    {a b : α} (ha : P a) (hb : P b) : P (if c then a else b) := by
  by_cases h : c
  · rw [if_pos h]; exact ha
  · rw [if_neg h]; exact hb

theorem BuildTileLayers_cases (env : TileBuildEnv) (pt : PartitionType)
    (x z : Int) :
    BuildTileLayers env pt x z = [] ∨
    BuildTileLayers env pt x z = layersToTiles x z 0 (env.layers x z) := by
  unfold BuildTileLayers
  refine iteCases (fun y => y = [] ∨ y = layersToTiles x z 0 (env.layers x z))
    (Or.inl rfl) ?_
  refine iteCases (fun y => y = [] ∨ y = layersToTiles x z 0 (env.layers x z))
    (Or.inl rfl) ?_
  refine iteCases (fun y => y = [] ∨ y = layersToTiles x z 0 (env.layers x z))
    (Or.inl rfl) ?_
  refine iteCases (fun y => y = [] ∨ y = layersToTiles x z 0 (env.layers x z))
    (Or.inl rfl) ?_
  refine iteCases (fun y => y = [] ∨ y = layersToTiles x z 0 (env.layers x z))
    (Or.inl rfl) ?_
  refine iteCases (fun y => y = [] ∨ y = layersToTiles x z 0 (env.layers x z))
    (Or.inl rfl) ?_
  refine iteCases (fun y => y = [] ∨ y = layersToTiles x z 0 (env.layers x z))
    (Or.inl rfl) ?_
  refine iteCases (fun y => y = [] ∨ y = layersToTiles x z 0 (env.layers x z))
    (Or.inl rfl) ?_
  refine iteCases (fun y => y = [] ∨ y = layersToTiles x z 0 (env.layers x z))
    (Or.inl rfl) ?_
  refine iteCases (fun y => y = [] ∨ y = layersToTiles x z 0 (env.layers x z))
    (Or.inl rfl) ?_
  exact iteCases (fun y => y = [] ∨ y = layersToTiles x z 0 (env.layers x z))
    (Or.inr rfl) (Or.inl rfl)

theorem mem_BuildTileLayers {env : TileBuildEnv} {pt : PartitionType}
    {x z : Int} {t : CompressedTile} (h : t ∈ BuildTileLayers env pt x z) :
    t.header.tx = x ∧ t.header.ty = z := by
  rcases BuildTileLayers_cases env pt x z with hc | hc
  · rw [hc] at h
    cases h
  · rw [hc] at h
    exact mem_layersToTiles h

theorem filter_removeCountP (p f : CompressedTile → Bool)
    (h : ∀ a, p a = true → f a = false) :
    ∀ (l : List CompressedTile) (n : Nat),
      (removeCountP p n l).filter f = l.filter f := by
  intro l
  induction l with
  | nil => intro n; cases n <;> rfl
  | cons t ts ih =>
    intro n
    cases n with
    | zero => rfl
    | succ m =>
      show (if p t then removeCountP p m ts
        else t :: removeCountP p (m + 1) ts).filter f = _
      by_cases hp : p t = true
      · rw [if_pos hp, ih m]
        have hf := h t hp
        simp [List.filter_cons, hf]
      · rw [if_neg hp]
        simp only [List.filter_cons, ih (m + 1)]

theorem removeCountP_sublist (p : CompressedTile → Bool) :
    ∀ (l : List CompressedTile) (n : Nat), (removeCountP p n l).Sublist l := by
  intro l
  induction l with
  | nil => intro n; cases n <;> exact List.Sublist.refl _
  | cons t ts ih =>
    intro n
    cases n with
    | zero => exact List.Sublist.refl _
    | succ m =>
      show (if p t then removeCountP p m ts
        else t :: removeCountP p (m + 1) ts).Sublist (t :: ts)
      by_cases hp : p t = true
      · rw [if_pos hp]
        exact (ih m).cons t
      · rw [if_neg hp]
        exact (ih (m + 1)).cons₂ t

theorem filter_addLayerLoop (ok : Nat → Bool) (f : CompressedTile → Bool) :
    ∀ (ts : List CompressedTile), (∀ t ∈ ts, f t = false) →
      ∀ (i : Nat) (c : TileCache),
        (addLayerLoop ok i ts c).tiles.filter f = c.tiles.filter f := by
  intro ts
  induction ts with
  | nil => intro _ i c; rfl
  | cons t ts ih =>
    intro h i c
    show (addLayerLoop ok (i + 1) ts (if ok i then addTile c t else c)).tiles.filter f = _
    rw [ih (fun u hu => h u (List.mem_cons_of_mem t hu)) (i + 1)]
    by_cases hok : ok i = true
    · rw [if_pos hok]
      show List.filter f (t :: c.tiles) = _
      simp [List.filter_cons, h t (List.mem_cons_self t ts)]
    · rw [if_neg hok]

theorem buildTilesStep_preserves (env : TileBuildEnv) (pt : PartitionType)
    (mL : Nat) (x z qx qz : Int) (c : TileCache) (h : ¬(x = qx ∧ z = qz)) :
    tilesAt (buildTilesStep env pt mL x z c) qx qz = tilesAt c qx qz := by
  have hcoord : ∀ a : CompressedTile, coordEq x z a = true →
      coordEq qx qz a = false := by
    intro a ha
    unfold coordEq at *
    simp only [Bool.and_eq_true, beq_iff_eq] at ha
    simp only [Bool.and_eq_false_iff, beq_eq_false_iff_ne]
    rcases Decidable.em (x = qx) with hx | hx
    · right; rw [ha.2]; intro hzz; exact h ⟨hx, hzz⟩
    · left; rw [ha.1]; exact hx
  unfold buildTilesStep tilesAt
  rw [filter_addLayerLoop _ _ _
    (fun t ht => hcoord t (by
      have hc := mem_BuildTileLayers ht
      unfold coordEq
      simp [hc.1, hc.2]))]
  show List.filter (coordEq qx qz)
    (removeCountP (fun t => coordEq x z t && (t.header.tlayer == 0)) 1
      (removeCountP (coordEq x z) mL c.tiles)) = _
  rw [filter_removeCountP _ _
    (fun a ha => hcoord a (Bool.and_elim_left ha)),
    filter_removeCountP _ _ hcoord]

theorem mem_intRangeIncl {v a b : Int} (h : v ∈ intRangeIncl a b) :
    a ≤ v ∧ v ≤ b := by
  unfold intRangeIncl at h
  simp only [List.mem_map, List.mem_range] at h
  rcases h with ⟨k, hk, hv⟩
  omega

theorem foldl_filter_invariant (g : Int → TileCache → TileCache)
    (f : CompressedTile → Bool) :
    ∀ (l : List Int),
      (∀ x ∈ l, ∀ c : TileCache, (g x c).tiles.filter f = c.tiles.filter f) →
      ∀ c : TileCache,
        (l.foldl (fun acc x => g x acc) c).tiles.filter f = c.tiles.filter f := by
  intro l
  induction l with
  | nil => intro _ c; rfl
  | cons x xs ih =>
    intro h c
    show ((xs.foldl (fun acc y => g y acc) (g x c)).tiles.filter f) = _
    rw [ih (fun y hy => h y (List.mem_cons_of_mem x hy)) (g x c),
      h x (List.mem_cons_self x xs)]

/-- C4: a partial rebuild `Build(from, to)` never alters the compressed
blob content stored for any tile coordinate outside the inclusive
rectangle, whether the call fails its preconditions or rebuilds the
rectangle. -/
theorem build_range_locality (nodePresent navMeshPresent : Bool)
    (env : TileBuildEnv) (pt : PartitionType) (mL : Nat) (p q : Int × Int)
    (c : TileCache) (qx qz : Int)
    (hout : ¬(p.1 ≤ qx ∧ qx ≤ q.1 ∧ p.2 ≤ qz ∧ qz ≤ q.2)) :
    tilesAt (BuildRange nodePresent navMeshPresent env pt mL p q c).2 qx qz =
      tilesAt c qx qz := by
  unfold BuildRange
  by_cases hn : nodePresent
  · by_cases hm : navMeshPresent
    · simp only [hn, hm, Bool.not_true, Bool.false_eq_true, if_false]
      unfold build_tiles tilesAt
      refine foldl_filter_invariant _ _ _ ?_ c
      intro z hz cz
      have hzr := mem_intRangeIncl hz
      refine foldl_filter_invariant _ _ _ ?_ cz
      intro x hx cx
      have hxr := mem_intRangeIncl hx
      exact buildTilesStep_preserves env pt mL x z qx qz cx (by
        intro hc
        exact hout ⟨by omega, by omega, by omega, by omega⟩)
    · simp [hn, hm]
  · simp [hn]

/-- C4 witness: rebuilding the rectangle (0,0)-(1,1) leaves the tile stored
at (5, 5) untouched. -/
theorem build_range_locality_witness :
    ¬((0 : Int) ≤ 5 ∧ (5 : Int) ≤ 1 ∧ (0 : Int) ≤ 5 ∧ (5 : Int) ≤ 1) ∧
    tilesAt (BuildRange true true
      ⟨fun _ _ => [], fun _ _ => [], fun _ _ => true, fun _ _ => true,
       fun _ _ => true, fun _ _ => true, fun _ _ => true, fun _ _ => true,
       fun _ _ => true, fun _ _ => true, fun _ _ => true, fun _ _ => true,
       fun _ _ => [], fun _ _ _ => true, fun _ _ _ => true⟩
      PartitionType.monotone 4 (0, 0) (1, 1)
      ⟨[⟨⟨5, 5, 0, []⟩, [9]⟩]⟩).2 5 5 =
      tilesAt (⟨[⟨⟨5, 5, 0, []⟩, [9]⟩]⟩ : TileCache) 5 5 :=
  ⟨by omega, build_range_locality true true _ PartitionType.monotone 4
    (0, 0) (1, 1) _ 5 5 (by intro h; omega)⟩

/-- C6: a tile coordinate whose expanded box yields no collected geometry
(no vertices or no indices) produces zero layers from `BuildTile` — not an
error — so a rebuild there adds nothing to an empty coordinate, and a
coordinate with no stored tiles is omitted from the persisted snapshot. -/
theorem buildTile_empty_geometry (env : TileBuildEnv) (pt : PartitionType)
    (x z : Int) (c : TileCache) (mL nX nZ : Nat)
    (hgeom : env.geomVertices x z = [] ∨ env.geomIndices x z = []) :
    BuildTileLayers env pt x z = [] ∧
    (tilesAt c x z = [] → tilesAt (buildTilesStep env pt mL x z c) x z = []) ∧
    (tilesAt c x z = [] → ∀ r ∈ serializeGrid c mL nX nZ,
      ¬(r.header.tx = x ∧ r.header.ty = z)) := by
  have hlayers : BuildTileLayers env pt x z = [] := by
    unfold BuildTileLayers
    rcases hgeom with hg | hg <;> simp [hg]
  refine ⟨hlayers, ?_, ?_⟩
  · intro hempty
    unfold buildTilesStep
    rw [hlayers]
    show tilesAt
      ⟨removeCountP (fun t => coordEq x z t && (t.header.tlayer == 0)) 1
        (removeCountP (coordEq x z) mL c.tiles)⟩ x z = []
    have hsub : (removeCountP (fun t => coordEq x z t && (t.header.tlayer == 0)) 1
        (removeCountP (coordEq x z) mL c.tiles)).Sublist c.tiles :=
      (removeCountP_sublist _ _ 1).trans (removeCountP_sublist _ _ mL)
    unfold tilesAt at *
    exact List.sublist_nil.mp (hempty ▸ hsub.filter (coordEq x z))
  · intro hempty r hr hcoord
    have hW : WriteTiles c mL x z = [] := by
      unfold WriteTiles getTilesAt
      rw [hempty]
      simp
    have hfil : (serializeGrid c mL nX nZ).filter (coordEq x z) = [] := by
      rw [filter_coord_serializeGrid]
      by_cases hin : 0 ≤ x ∧ x < (nX : Int) ∧ 0 ≤ z ∧ z < (nZ : Int)
      · rw [if_pos hin, hW]
      · rw [if_neg hin]
    have : r ∈ (serializeGrid c mL nX nZ).filter (coordEq x z) := by
      refine List.mem_filter.mpr ⟨hr, ?_⟩
      unfold coordEq
      simp [hcoord.1, hcoord.2]
    rw [hfil] at this
    cases this

/-- C6 witness: no geometry at (0, 0) gives zero layers and no snapshot
record at (0, 0) on the empty cache. -/
theorem buildTile_empty_geometry_witness :
    BuildTileLayers
      ⟨fun _ _ => [], fun _ _ => [1, 2, 3], fun _ _ => true, fun _ _ => true,
       fun _ _ => true, fun _ _ => true, fun _ _ => true, fun _ _ => true,
       fun _ _ => true, fun _ _ => true, fun _ _ => true, fun _ _ => true,
       fun _ _ => [([0], [7])], fun _ _ _ => true, fun _ _ _ => true⟩
      PartitionType.monotone 0 0 = [] ∧
    tilesAt (buildTilesStep
      ⟨fun _ _ => [], fun _ _ => [1, 2, 3], fun _ _ => true, fun _ _ => true,
       fun _ _ => true, fun _ _ => true, fun _ _ => true, fun _ _ => true,
       fun _ _ => true, fun _ _ => true, fun _ _ => true, fun _ _ => true,
       fun _ _ => [([0], [7])], fun _ _ _ => true, fun _ _ _ => true⟩
      PartitionType.monotone 4 0 0 ⟨[]⟩) 0 0 = [] := by
  have h := buildTile_empty_geometry
    ⟨fun _ _ => [], fun _ _ => [1, 2, 3], fun _ _ => true, fun _ _ => true,
     fun _ _ => true, fun _ _ => true, fun _ _ => true, fun _ _ => true,
     fun _ _ => true, fun _ _ => true, fun _ _ => true, fun _ _ => true,
     fun _ _ => [([0], [7])], fun _ _ _ => true, fun _ _ _ => true⟩
    PartitionType.monotone 0 0 ⟨[]⟩ 4 1 1 (Or.inl rfl)
  exact ⟨h.1, h.2.1 rfl⟩

/-! ## Mesh-Process off-mesh connection handling (C5) -/

/-- C5 counterexample: an enabled connection with an end point whose bounds
are disjoint from the layer's bounds is still collected by the callback —
the claimed overlap filter does not exist (and the bounds the callback
builds are degenerate: `max_` is copied from `bmin`). -/
theorem meshProcess_collects_nonoverlapping :
    CollectOffMeshConnections (processQueryBounds (0, 0, 0) (1, 1, 1))
      [⟨true, true, ⟨100, 100, 100, 101, 101, 101⟩, (100, 100, 100),
        (101, 101, 101), 1, 2, 3, true⟩] =
      [⟨true, true, ⟨100, 100, 100, 101, 101, 101⟩, (100, 100, 100),
        (101, 101, 101), 1, 2, 3, true⟩] ∧
    CollectOffMeshConnectionsSpec ⟨0, 0, 0, 1, 1, 1⟩
      [⟨true, true, ⟨100, 100, 100, 101, 101, 101⟩, (100, 100, 100),
        (101, 101, 101), 1, 2, 3, true⟩] = [] ∧
    bboxOverlaps ⟨0, 0, 0, 1, 1, 1⟩ ⟨100, 100, 100, 101, 101, 101⟩ = false := by
  decide

/-- C5 (amended): the Mesh-Process callback queries the owning mesh for all
enabled off-mesh connections that have an end point — whatever bounds it is
handed, so not restricted to the layer's bounds — transforms their
endpoints into navmesh-local space and republishes them (count, endpoints,
masks, radii, areas, directions), with walkable poly areas given overridden
`polyFlags`. The cached arrays are rebuilt when the collected count differs
from the cached one. -/
theorem meshProcess_amended (inv : Int × Int × Int → Int × Int × Int)
    (comps : List OffMeshConn) (st : MeshProcessState)
    (pr : MeshProcessParams) (bounds : BBox)
    (hfresh : (comps.filter (fun c => c.enabled && c.hasEndPoint)).length ≠
      st.offMeshRadii.length)
    (hne : comps.filter (fun c => c.enabled && c.hasEndPoint) ≠ []) :
    CollectOffMeshConnections bounds comps =
      comps.filter (fun c => c.enabled && c.hasEndPoint) ∧
    (MeshProcessRun inv comps st pr).offMeshConCount =
      (comps.filter (fun c => c.enabled && c.hasEndPoint)).length ∧
    (MeshProcessRun inv comps st pr).state.offMeshVertices =
      (comps.filter (fun c => c.enabled && c.hasEndPoint)).bind
        (fun c => [inv c.startPos, inv c.endPos]) ∧
    (MeshProcessRun inv comps st pr).state.offMeshFlags =
      (comps.filter (fun c => c.enabled && c.hasEndPoint)).map
        (fun c => c.mask) ∧
    (MeshProcessRun inv comps st pr).state.offMeshRadii =
      (comps.filter (fun c => c.enabled && c.hasEndPoint)).map
        (fun c => c.radius) ∧
    (MeshProcessRun inv comps st pr).polyFlags =
      processPolyFlags pr.polyAreas pr.polyFlags := by
  refine ⟨rfl, ?_⟩
  unfold MeshProcessRun CollectOffMeshConnections
  have hne2 : (comps.filter (fun c => c.enabled && c.hasEndPoint)).isEmpty = false := by
    cases hf : comps.filter (fun c => c.enabled && c.hasEndPoint) with
    | nil => exact absurd hf hne
    | cons a l => rfl
  simp only [hne2, Bool.false_eq_true, if_false, if_pos hfresh]
  simp

/-- C5 (amended) witness at a concrete non-overlapping connection and the
identity transform. -/
theorem meshProcess_amended_witness :
    ((([⟨true, true, ⟨100, 100, 100, 101, 101, 101⟩, (100, 100, 100),
        (101, 101, 101), 1, 2, 3, true⟩] : List OffMeshConn).filter
          (fun c => c.enabled && c.hasEndPoint)).length ≠
      ([] : List Int).length) ∧
    (MeshProcessRun (fun p => p)
      [⟨true, true, ⟨100, 100, 100, 101, 101, 101⟩, (100, 100, 100),
        (101, 101, 101), 1, 2, 3, true⟩]
      ⟨[], [], [], [], []⟩ ⟨(0, 0, 0), (1, 1, 1), [1, 0], [5, 6]⟩).offMeshConCount =
      1 := by
  have h := meshProcess_amended (fun p => p)
    [⟨true, true, ⟨100, 100, 100, 101, 101, 101⟩, (100, 100, 100),
      (101, 101, 101), 1, 2, 3, true⟩]
    ⟨[], [], [], [], []⟩ ⟨(0, 0, 0), (1, 1, 1), [1, 0], [5, 6]⟩
    ⟨0, 0, 0, 1, 1, 1⟩ (by decide) (by decide)
  exact ⟨by decide, h.2.1⟩

/-! ## Full build control flow (C1) -/

/-- C1 counterexample: `Build()` returns false at an environment that has
an owning node and non-empty geometry but a failing navmesh allocation —
so a false return does not imply a missing scene-transform context. -/
theorem buildFull_false_despite_node :
    (BuildFull
      { nodePresent := true, geometryList := [1], numTilesX := 1,
        numTilesZ := 1, navMeshAllocOk := false, navMeshInitOk := true,
        tileCacheAllocOk := true, tileCacheInitOk := true,
        tileEnv := ⟨fun _ _ => [], fun _ _ => [], fun _ _ => true,
          fun _ _ => true, fun _ _ => true, fun _ _ => true, fun _ _ => true,
          fun _ _ => true, fun _ _ => true, fun _ _ => true, fun _ _ => true,
          fun _ _ => true, fun _ _ => [], fun _ _ _ => true,
          fun _ _ _ => true⟩,
        partitionType := PartitionType.monotone }).1 = false ∧
    (true : Bool) = true := ⟨rfl, rfl⟩

/-- C1 (amended): `Build()` returns false only if there is no owning node
or navmesh/tile-cache allocation or initialization fails; with a node and
no collected geometry it returns true as a no-op, leaving no mesh built. -/
theorem buildFull_false_characterization (env : FullBuildEnv) :
    ((BuildFull env).1 = false →
      env.nodePresent = false ∨ env.navMeshAllocOk = false ∨
      env.navMeshInitOk = false ∨ env.tileCacheAllocOk = false ∨
      env.tileCacheInitOk = false) ∧
    (env.nodePresent = true → env.geometryList = [] →
      BuildFull env = (true, none)) := by
  unfold BuildFull
  constructor
  · intro hfalse
    by_cases h1 : env.nodePresent
    · by_cases h2 : env.geometryList.isEmpty
      · simp [h1, h2] at hfalse
      · by_cases h3 : env.navMeshAllocOk
        · by_cases h4 : env.navMeshInitOk
          · by_cases h5 : env.tileCacheAllocOk
            · by_cases h6 : env.tileCacheInitOk
              · simp [h1, h2, h3, h4, h5, h6] at hfalse
              · simp [h6]
            · simp [h5]
          · simp [h4]
        · simp [h3]
    · simp [Bool.eq_false_iff.mpr h1]
  · intro hnode hgeom
    simp [hnode, hgeom]

/-- C1 (amended) witness: with a node and empty geometry the build is a
successful no-op; with a failed cache init it returns false for a reason in
the characterization. -/
theorem buildFull_false_characterization_witness :
    BuildFull
      { nodePresent := true, geometryList := [], numTilesX := 0,
        numTilesZ := 0, navMeshAllocOk := true, navMeshInitOk := true,
        tileCacheAllocOk := true, tileCacheInitOk := true,
        tileEnv := ⟨fun _ _ => [], fun _ _ => [], fun _ _ => true,
          fun _ _ => true, fun _ _ => true, fun _ _ => true, fun _ _ => true,
          fun _ _ => true, fun _ _ => true, fun _ _ => true, fun _ _ => true,
          fun _ _ => true, fun _ _ => [], fun _ _ _ => true,
          fun _ _ _ => true⟩,
        partitionType := PartitionType.monotone } = (true, none) :=
  (buildFull_false_characterization _).2 rfl rfl

/-- C10 witness at a concrete cache-less state. -/
theorem obstacle_ops_noop_without_cache_witness :
    ({ tileCachePresent := false, queueFull := true, cacheObstacles := [3],
       obstacleId := 5, nodePresent := true, events := [] } : NavState).tileCachePresent
        = false ∧
    AddObstacle ⟨true, 9, true⟩ false
      { tileCachePresent := false, queueFull := true, cacheObstacles := [3],
        obstacleId := 5, nodePresent := true, events := [] } =
      { tileCachePresent := false, queueFull := true, cacheObstacles := [3],
        obstacleId := 5, nodePresent := true, events := [] } :=
  ⟨rfl, (obstacle_ops_noop_without_cache ⟨true, 9, true⟩ false
    { tileCachePresent := false, queueFull := true, cacheObstacles := [3],
      obstacleId := 5, nodePresent := true, events := [] } rfl).1⟩

end DvigloNav
